import Mathlib

/-! # Product service (`server/index.js`)

A shallow embedding of the four route handlers of the Express application and of the
storage they call, followed by the properties of the HTTP contract.

* The handlers (`app.post('/products')`, `app.get('/products/:id')`,
  `app.put('/products/:id')`, `app.delete('/products/:id')`) are written once, over any
  storage backend whose calls either return or raise, so that the `try`/`catch` of each
  handler is part of the model.
* `sequelize` is the backend the application configures: the `Product` model with
  `allowNull: false` on `name` and `price` and an auto-incremented integer key.
* Start-up (`clearDatabase`, the `storage` option, `Product.sync`) is modelled over a
  file system indexed by absolute paths.

Request bodies are taken as the route annotations type them: `name` a string, `price` a
number, each possibly `null` or absent. A number is a JavaScript number, that is a double:
`bodyParser.json()` reads the decimal number of the request text as the nearest double
(`parseNumber`), the handlers and the table carry that double, and `res.json` writes a finite
double as a number and `Infinity`, `-Infinity` and `NaN` as `null` (`stringifyNumber`). The
`createdAt` and `updatedAt` columns that the storage library adds are left out of the record.
-/

namespace ProductService

/-! ## Values, records, requests and responses -/

/-- A property read from a JavaScript object: absent (`undefined`), `null`, or a value. -/
inductive Field (α : Type) where
  | undefined : Field α
  | null : Field α
  | val (a : α) : Field α
  deriving DecidableEq, Repr

/-- The test `value === null || value === undefined`. -/
def Field.isNullish {α : Type} : Field α → Bool
  | .val _ => false
  | _ => true

/-- A JavaScript number: a finite double of value `m * 2 ^ e`, an infinity, or `NaN`. The
parser produces finite doubles in normal form only: zero is `finite 0 0`, a subnormal has
`e = -1074` and `|m| < 2 ^ 52`, any other has `2 ^ 52 ≤ |m| < 2 ^ 53` and `-1074 ≤ e ≤ 971`. -/
inductive Double where
  | finite (m : Int) (e : Int) : Double
  | infinity (negative : Bool) : Double
  | nan : Double
  deriving DecidableEq, Repr

/-- The test `Number.isFinite`. -/
def Double.isFinite : Double → Bool
  | .finite _ _ => true
  | _ => false

/-- A number as JSON text writes it: sign, decimal digits and decimal exponent, of value
`± digits * 10 ^ exponent` (`9.99` is the digits `999` with exponent `-2`). -/
structure JsonNumber where
  negative : Bool
  digits : Nat
  exponent : Int
  deriving DecidableEq, Repr

/-- The quotient `n / d` rounded to the nearest natural number, a tie going to the even one. -/
def roundHalfEven (n d : Nat) : Nat :=
  let q := n / d
  let r := n % d
  if 2 * r < d then q
  else if d < 2 * r then q + 1
  else if q % 2 = 0 then q else q + 1

/-- The fraction `n / d` divided by `2 ^ e`, as numerator and denominator. -/
def scale (n d : Nat) (e : Int) : Nat × Nat :=
  if 0 ≤ e then (n, d * 2 ^ e.toNat) else (n * 2 ^ (-e).toNat, d)

/-- Whether `n / d` divided by `2 ^ e` is below `2 ^ 53`. -/
def belowTwo53 (n d : Nat) (e : Int) : Bool :=
  decide ((scale n d e).1 < 2 ^ 53 * (scale n d e).2)

/-- The binary exponent of the double nearest to `n / d`: the least `e` from `-1074` on at
which `n / d` divided by `2 ^ e` is below `2 ^ 53` (found by bisection; `973` if there is
none up to `972`). -/
def exponentOf (n d : Nat) : Int :=
  (([1024, 512, 256, 128, 64, 32, 16, 8, 4, 2, 1] : List Nat).foldl
    (fun k b => if belowTwo53 n d (((k + b - 1 : Nat) : Int) - 1074) then k else k + b) 0 :
      Nat) - 1074

/-- The fraction `n / d` rounded to a double (nearest, ties to even): mantissa and binary
exponent, or `none` when the rounded magnitude exceeds the largest double. -/
def roundMagnitude (n d : Nat) : Option (Nat × Int) :=
  let e := exponentOf n d
  let m := roundHalfEven (scale n d e).1 (scale n d e).2
  let me : Nat × Int := if m = 2 ^ 53 then (2 ^ 52, e + 1) else (m, e)
  if 971 < me.2 then none else some me

/-- The number `JSON.parse` reads from a JSON number: the double nearest to its decimal
value, an infinity when that value is out of range. -/
def parseNumber (lit : JsonNumber) : Double :=
  let n : Nat := if 0 ≤ lit.exponent then lit.digits * 10 ^ lit.exponent.toNat else lit.digits
  let d : Nat := if 0 ≤ lit.exponent then 1 else 10 ^ (-lit.exponent).toNat
  match roundMagnitude n d with
  | none => .infinity lit.negative
  | some (m, e) =>
    if m = 0 then .finite 0 0
    else .finite (if lit.negative then -(m : Int) else (m : Int)) e

/-- A numeral written as JSON text. -/
instance (n : Nat) : OfNat JsonNumber n := ⟨⟨false, n, 0⟩⟩

/-- A numeral as a JavaScript number: the double the numeral is read as. -/
instance (n : Nat) : OfNat Double n := ⟨parseNumber ⟨false, n, 0⟩⟩

/-- What `JSON.stringify` writes for a number: the number if it is finite, `null` if not. -/
def stringifyNumber (x : Double) : Field Double :=
  if x.isFinite then .val x else .null

/-- A `Product` instance: the key and the two attributes of `sequelize.define('Product', ...)`.
The same shape serves for the JSON object `res.json` writes for an instance. -/
structure Product where
  id : Nat
  name : Field String
  price : Field Double
  deriving DecidableEq, Repr

/-- The JSON body of a request as the client sent it: `name`, `price` as JSON text writes it,
and whatever other properties there are (name and serialised value). -/
structure WireBody where
  name : Field String
  price : Field JsonNumber
  others : List (String × String)
  deriving DecidableEq, Repr

/-- The parsed body `req.body`: the two properties the handlers destructure, and whatever
other properties the client sent (name and serialised value), which no handler reads. -/
structure Body where
  name : Field String
  price : Field Double
  others : List (String × String)
  deriving DecidableEq, Repr

/-- The middleware `bodyParser.json()`: `req.body` is the request text parsed as JSON. -/
def bodyParser (wire : WireBody) : Body :=
  { name := wire.name
    price :=
      match wire.price with
      | .val lit => .val (parseNumber lit)
      | .null => .null
      | .undefined => .undefined
    others := wire.others }

/-- What a response carries: the JSON object of a model instance, `{ error: msg }` or
`{ message: msg }`. -/
inductive Payload where
  | record (p : Product) : Payload
  | error (msg : String) : Payload
  | message (msg : String) : Payload
  deriving DecidableEq, Repr

/-- One response written to `res`: the status code and the JSON payload. -/
structure Response where
  status : Nat
  body : Payload
  deriving DecidableEq, Repr

/-- What `JSON.stringify` writes for the `price` property of an instance. -/
def stringifyPrice : Field Double → Field Double
  | .val x => stringifyNumber x
  | .null => .null
  | .undefined => .undefined

/-- The call `res.json(product)` on a model instance: the JSON object of the instance, in
which a `price` that is not a finite number is written `null`. -/
def json (product : Product) : Payload :=
  .record ⟨product.id, product.name, stringifyPrice product.price⟩

/-- The effect of one handler invocation: the responses written, in order, and the storage
state left behind. -/
structure Outcome (σ : Type) where
  sent : List Response
  store : σ

/-- The four routes; the `:id` path parameter is an integer key, as the route annotations
declare it. -/
inductive Request where
  | post (body : Body) : Request
  | get (id : Nat) : Request
  | put (id : Nat) (body : Body) : Request
  | delete (id : Nat) : Request
  deriving DecidableEq, Repr

/-! ## The storage interface the handlers call -/

/-- The four storage calls of the handlers. Each call runs on a storage state `σ` and either
returns a value or raises an error of type `ε`; either way it leaves a storage state. -/
structure Storage (σ ε : Type) where
  create : Field String → Field Double → σ → Except ε Product × σ
  findByPk : Nat → σ → Except ε (Option Product) × σ
  save : Product → σ → Except ε Unit × σ
  destroy : Product → σ → Except ε Unit × σ

/-! ## The route handlers -/

/-- The handler `app.post('/products', ...)`. -/
def postProducts {σ ε : Type} (db : Storage σ ε) (body : Body) (s : σ) : Outcome σ :=
  let name := body.name
  let price := body.price
  match db.create name price s with
  | (.ok newProduct, s1) => ⟨[⟨201, json newProduct⟩], s1⟩
  | (.error _, s1) => ⟨[⟨500, .error "Unable to create product"⟩], s1⟩

/-- The handler `app.get('/products/:id', ...)`. -/
def getProductById {σ ε : Type} (db : Storage σ ε) (productId : Nat) (s : σ) : Outcome σ :=
  match db.findByPk productId s with
  | (.ok none, s1) => ⟨[⟨404, .error "Product not found"⟩], s1⟩
  | (.ok (some product), s1) => ⟨[⟨200, json product⟩], s1⟩
  | (.error _, s1) => ⟨[⟨500, .error "Unable to retrieve product"⟩], s1⟩

/-- The handler `app.put('/products/:id', ...)`. -/
def putProductById {σ ε : Type} (db : Storage σ ε) (productId : Nat) (body : Body) (s : σ) :
    Outcome σ :=
  let name := body.name
  let price := body.price
  match db.findByPk productId s with
  | (.ok none, s1) => ⟨[⟨404, .error "Product not found"⟩], s1⟩
  | (.ok (some found), s1) =>
    let product : Product := { found with name := name, price := price }
    match db.save product s1 with
    | (.ok _, s2) => ⟨[⟨200, json product⟩], s2⟩
    | (.error _, s2) => ⟨[⟨500, .error "Unable to update product"⟩], s2⟩
  | (.error _, s1) => ⟨[⟨500, .error "Unable to update product"⟩], s1⟩

/-- The handler `app.delete('/products/:id', ...)`. -/
def deleteProductById {σ ε : Type} (db : Storage σ ε) (productId : Nat) (s : σ) : Outcome σ :=
  match db.findByPk productId s with
  | (.ok none, s1) => ⟨[⟨404, .error "Product not found"⟩], s1⟩
  | (.ok (some product), s1) =>
    match db.destroy product s1 with
    | (.ok _, s2) => ⟨[⟨200, .message "Product deleted successfully"⟩], s2⟩
    | (.error _, s2) => ⟨[⟨500, .error "Unable to delete product"⟩], s2⟩
  | (.error _, s1) => ⟨[⟨500, .error "Unable to delete product"⟩], s1⟩

/-- Route dispatch: the handler registered for the request's method and path. -/
def handle {σ ε : Type} (db : Storage σ ε) : Request → σ → Outcome σ
  | .post body, s => postProducts db body s
  | .get id, s => getProductById db id s
  | .put id body, s => putProductById db id body s
  | .delete id, s => deleteProductById db id s

/-- A sequence of requests served one after the other: all responses written, in order, and
the final storage state. -/
def run {σ ε : Type} (db : Storage σ ε) : List Request → σ → Outcome σ
  | [], s => ⟨[], s⟩
  | r :: rs, s =>
    let o := handle db r s
    let o2 := run db rs o.store
    ⟨o.sent ++ o2.sent, o2.store⟩

/-- The ids handed out by the `201` responses of a response log. -/
def createdIds (sent : List Response) : List Nat :=
  sent.filterMap fun r =>
    match r.status, r.body with
    | 201, .record p => some p.id
    | _, _ => none

/-! ## The configured backend: the `Product` model on the SQLite file

The storage library is an external dependency of the application. Its four calls are modelled
as the application configures them: `name` and `price` are declared `allowNull: false`, so
`create` and `save` raise on a `null` or `undefined` attribute and write nothing; the key is
the library's default auto-incremented integer `id`, which is never handed out twice. -/

/-- The `Products` table: its rows and the auto-increment counter, the largest key handed
out so far. -/
structure Store where
  rows : List Product
  seq : Nat
  deriving DecidableEq, Repr

/-- The table right after `Product.sync()` on a truncated file. -/
def emptyStore : Store := ⟨[], 0⟩

/-- The error a storage call of the configured backend raises: a column declared
`allowNull: false` was given `null` or `undefined`. -/
inductive StorageError where
  | notNull (column : String) : StorageError
  deriving DecidableEq, Repr

/-- The call `Product.create({ name, price })`: both attributes are `allowNull: false`; an
accepted row gets the next key of the auto-increment counter. -/
def Product.create (name : Field String) (price : Field Double) (db : Store) :
    Except StorageError Product × Store :=
  if name.isNullish then (.error (.notNull "name"), db)
  else if price.isNullish then (.error (.notNull "price"), db)
  else
    let newProduct : Product := ⟨db.seq + 1, name, price⟩
    (.ok newProduct, ⟨db.rows ++ [newProduct], db.seq + 1⟩)

/-- The call `Product.findByPk(productId)`: the row with that key, or `null`. -/
def Product.findByPk (productId : Nat) (db : Store) : Except StorageError (Option Product) × Store :=
  (.ok (db.rows.find? fun row => row.id == productId), db)

/-- The call `product.save()` on a loaded instance: the attributes are validated against
`allowNull: false`, then the row with the instance's key is rewritten. -/
def Product.save (product : Product) (db : Store) : Except StorageError Unit × Store :=
  if product.name.isNullish then (.error (.notNull "name"), db)
  else if product.price.isNullish then (.error (.notNull "price"), db)
  else (.ok (), ⟨db.rows.map fun row => if row.id = product.id then product else row, db.seq⟩)

/-- The call `product.destroy()`: the row with the instance's key is deleted. -/
def Product.destroy (product : Product) (db : Store) : Except StorageError Unit × Store :=
  (.ok (), ⟨db.rows.filter fun row => row.id != product.id, db.seq⟩)

/-- The backend the application is wired to. -/
def sequelize : Storage Store StorageError where
  create := Product.create
  findByPk := Product.findByPk
  save := Product.save
  destroy := Product.destroy

/-- A backend none of whose calls succeeds (the database cannot be reached): every call
raises the given error and leaves the state alone. -/
def unavailable (e : StorageError) : Storage Store StorageError where
  create := fun _ _ s => (.error e, s)
  findByPk := fun _ s => (.error e, s)
  save := fun _ s => (.error e, s)
  destroy := fun _ s => (.error e, s)

/-- A backend whose lookups work as configured and whose writes (`save`, `destroy`) raise. -/
def readOnly (e : StorageError) : Storage Store StorageError where
  create := fun _ _ s => (.error e, s)
  findByPk := Product.findByPk
  save := fun _ s => (.error e, s)
  destroy := fun _ s => (.error e, s)

/-! ## Start-up: `clearDatabase`, the `storage` option and `Product.sync` -/

/-- An absolute path, as the list of its segments below the root. -/
abbrev Path := List String

/-- What a file holds: nothing (zero length), or a database with the `Products` table. -/
inductive FileContent where
  | blank : FileContent
  | database (table : Store) : FileContent
  deriving DecidableEq, Repr

/-- The files present, by absolute path; the first binding of a path is the file. -/
abbrev FileSystem := List (Path × FileContent)

/-- The file at a path, if there is one. -/
def readFile (fs : FileSystem) (p : Path) : Option FileContent :=
  (fs.find? fun entry => entry.1 == p).map fun entry => entry.2

/-- The call `fs.writeFileSync(p, content)`: the file at `p` is created or replaced. -/
def writeFileSync (fs : FileSystem) (p : Path) (content : FileContent) : FileSystem :=
  (p, content) :: fs.filter fun entry => entry.1 != p

/-- The constant `databasePath = path.join(__dirname, 'database.sqlite')`. -/
def databasePath (dirname : Path) : Path := dirname ++ ["database.sqlite"]

/-- The function `clearDatabase()`: `fs.writeFileSync(databasePath, '')`. -/
def clearDatabase (dirname : Path) (fs : FileSystem) : FileSystem :=
  writeFileSync fs (databasePath dirname) .blank

/-- The file the connection opens: `storage: 'database.sqlite'` is a relative path, which is
resolved against the working directory of the process. -/
def storagePath (cwd : Path) : Path := cwd ++ ["database.sqlite"]

/-- The call `Product.sync()` on the opened file: the table is created if it does not exist
and is left as it is otherwise. The result is the file system and the table the handlers
then work on. -/
def Product.sync (storage : Path) (fs : FileSystem) : FileSystem × Store :=
  match readFile fs storage with
  | some (.database table) => (fs, table)
  | _ => (writeFileSync fs storage (.database emptyStore), emptyStore)

/-- Module load of `index.js` in a process whose module directory is `dirname` and whose
working directory is `cwd`: `clearDatabase()`, then the connection, then `Product.sync()`. -/
def startUp (dirname cwd : Path) (fs : FileSystem) : FileSystem × Store :=
  let fs1 := clearDatabase dirname fs
  Product.sync (storagePath cwd) fs1

/-! ## Helper lemmas -/

/-- No stored key exceeds the auto-increment counter. -/
def Store.SeqOk (s : Store) : Prop := ∀ row ∈ s.rows, row.id ≤ s.seq

/-- Every stored row has an assigned key and non-null `name` and `price`. -/
def Store.NonNull (s : Store) : Prop :=
  ∀ row ∈ s.rows, 1 ≤ row.id ∧ row.name.isNullish = false ∧ row.price.isNullish = false

theorem isNullish_val {α : Type} (f : Field α) (a : α) (h : f = .val a) :
    f.isNullish = false := by
  subst h; rfl

theorem val_of_not_nullish {α : Type} (f : Field α) (h : f.isNullish = false) :
    ∃ a, f = .val a := by
  cases f with
  | undefined => simp [Field.isNullish] at h
  | null => simp [Field.isNullish] at h
  | val a => exact ⟨a, rfl⟩

/-- An accepted create: the outcome of the handler, spelled out. -/
theorem postProducts_accept (body : Body) (s : Store)
    (hn : body.name.isNullish = false) (hp : body.price.isNullish = false) :
    postProducts sequelize body s =
      ⟨[⟨201, json ⟨s.seq + 1, body.name, body.price⟩⟩],
        ⟨s.rows ++ [⟨s.seq + 1, body.name, body.price⟩], s.seq + 1⟩⟩ := by
  simp [postProducts, sequelize, Product.create, hn, hp]

/-- A rejected create: the outcome of the handler, spelled out. -/
theorem postProducts_reject (body : Body) (s : Store)
    (h : body.name.isNullish = true ∨ body.price.isNullish = true) :
    postProducts sequelize body s = ⟨[⟨500, .error "Unable to create product"⟩], s⟩ := by
  unfold postProducts
  simp only [sequelize, Product.create]
  rcases h with h | h
  · simp [h]
  · cases hn : body.name.isNullish <;> simp [h]

/-- The lookup of the configured backend never raises and never writes. -/
theorem getProductById_eq (i : Nat) (s : Store) :
    getProductById sequelize i s =
      match s.rows.find? (fun row => row.id == i) with
      | none => ⟨[⟨404, .error "Product not found"⟩], s⟩
      | some product => ⟨[⟨200, json product⟩], s⟩ := by
  unfold getProductById
  simp only [sequelize, Product.findByPk]
  cases s.rows.find? (fun row => row.id == i) <;> rfl

theorem find_none_of_absent (i : Nat) (rows : List Product) (h : ∀ row ∈ rows, row.id ≠ i) :
    rows.find? (fun row => row.id == i) = none := by
  rw [List.find?_eq_none]
  intro row hrow
  simpa using h row hrow

theorem find_some_of_present (i : Nat) (rows : List Product) (h : ∃ row ∈ rows, row.id = i) :
    ∃ found, rows.find? (fun row => row.id == i) = some found ∧ found ∈ rows ∧ found.id = i := by
  cases hf : rows.find? (fun row => row.id == i) with
  | none =>
    rw [List.find?_eq_none] at hf
    obtain ⟨row, hrow, hid⟩ := h
    exact absurd (by simpa using hid) (hf row hrow)
  | some found =>
    exact ⟨found, rfl, List.mem_of_find?_eq_some hf, by simpa using List.find?_some hf⟩

theorem putProductById_absent (i : Nat) (body : Body) (s : Store)
    (h : s.rows.find? (fun row => row.id == i) = none) :
    putProductById sequelize i body s = ⟨[⟨404, .error "Product not found"⟩], s⟩ := by
  simp [putProductById, sequelize, Product.findByPk, h]

theorem putProductById_accept (i : Nat) (body : Body) (s : Store) (found : Product)
    (h : s.rows.find? (fun row => row.id == i) = some found)
    (hn : body.name.isNullish = false) (hp : body.price.isNullish = false) :
    putProductById sequelize i body s =
      ⟨[⟨200, json ⟨found.id, body.name, body.price⟩⟩],
        ⟨s.rows.map fun row =>
          if row.id = found.id then ⟨found.id, body.name, body.price⟩ else row, s.seq⟩⟩ := by
  simp [putProductById, sequelize, Product.findByPk, Product.save, h, hn, hp]

theorem putProductById_reject (i : Nat) (body : Body) (s : Store) (found : Product)
    (h : s.rows.find? (fun row => row.id == i) = some found)
    (hb : body.name.isNullish = true ∨ body.price.isNullish = true) :
    putProductById sequelize i body s = ⟨[⟨500, .error "Unable to update product"⟩], s⟩ := by
  unfold putProductById
  simp only [sequelize, Product.findByPk, Product.save, h]
  rcases hb with hb | hb
  · simp [hb]
  · cases hn : body.name.isNullish <;> simp [hb]

theorem deleteProductById_absent (i : Nat) (s : Store)
    (h : s.rows.find? (fun row => row.id == i) = none) :
    deleteProductById sequelize i s = ⟨[⟨404, .error "Product not found"⟩], s⟩ := by
  simp [deleteProductById, sequelize, Product.findByPk, h]

theorem deleteProductById_present (i : Nat) (s : Store) (found : Product)
    (h : s.rows.find? (fun row => row.id == i) = some found) :
    deleteProductById sequelize i s =
      ⟨[⟨200, .message "Product deleted successfully"⟩],
        ⟨s.rows.filter fun row => row.id != found.id, s.seq⟩⟩ := by
  simp [deleteProductById, sequelize, Product.findByPk, Product.destroy, h]

/-- One request, by cases: what it writes to the table and which key a `201` carries. -/
theorem handle_cases (r : Request) (s : Store) :
    (∃ body, r = .post body ∧ body.name.isNullish = false ∧ body.price.isNullish = false ∧
        handle sequelize r s =
          ⟨[⟨201, json ⟨s.seq + 1, body.name, body.price⟩⟩],
            ⟨s.rows ++ [⟨s.seq + 1, body.name, body.price⟩], s.seq + 1⟩⟩) ∨
    (∃ i body found, r = .put i body ∧ found ∈ s.rows ∧
        body.name.isNullish = false ∧ body.price.isNullish = false ∧
        handle sequelize r s =
          ⟨[⟨200, json ⟨found.id, body.name, body.price⟩⟩],
            ⟨s.rows.map fun row =>
              if row.id = found.id then ⟨found.id, body.name, body.price⟩ else row, s.seq⟩⟩) ∨
    (∃ k, handle sequelize r s =
          ⟨[⟨200, .message "Product deleted successfully"⟩],
            ⟨s.rows.filter fun row => row.id != k, s.seq⟩⟩) ∨
    (∃ resp, resp.status ≠ 201 ∧ handle sequelize r s = ⟨[resp], s⟩) := by
  cases r with
  | post body =>
    cases hn : body.name.isNullish
    · cases hp : body.price.isNullish
      · exact Or.inl ⟨body, rfl, hn, hp, postProducts_accept body s hn hp⟩
      · exact Or.inr (Or.inr (Or.inr ⟨_, by decide, postProducts_reject body s (Or.inr hp)⟩))
    · exact Or.inr (Or.inr (Or.inr ⟨_, by decide, postProducts_reject body s (Or.inl hn)⟩))
  | get i =>
    refine Or.inr (Or.inr (Or.inr ?_))
    show ∃ resp, resp.status ≠ 201 ∧ getProductById sequelize i s = ⟨[resp], s⟩
    rw [getProductById_eq]
    cases s.rows.find? (fun row => row.id == i) with
    | none => exact ⟨_, by decide, rfl⟩
    | some product => exact ⟨⟨200, json product⟩, by simp, rfl⟩
  | put i body =>
    cases hf : s.rows.find? (fun row => row.id == i) with
    | none => exact Or.inr (Or.inr (Or.inr ⟨_, by decide, putProductById_absent i body s hf⟩))
    | some found =>
      cases hn : body.name.isNullish
      · cases hp : body.price.isNullish
        · exact Or.inr (Or.inl ⟨i, body, found, rfl, List.mem_of_find?_eq_some hf, hn, hp,
            putProductById_accept i body s found hf hn hp⟩)
        · exact Or.inr (Or.inr (Or.inr
            ⟨_, by decide, putProductById_reject i body s found hf (Or.inr hp)⟩))
      · exact Or.inr (Or.inr (Or.inr
          ⟨_, by decide, putProductById_reject i body s found hf (Or.inl hn)⟩))
  | delete i =>
    cases hf : s.rows.find? (fun row => row.id == i) with
    | none => exact Or.inr (Or.inr (Or.inr ⟨_, by decide, deleteProductById_absent i s hf⟩))
    | some found => exact Or.inr (Or.inr (Or.inl ⟨found.id, deleteProductById_present i s found hf⟩))

/-- The auto-increment counter never goes down. -/
theorem handle_seq_mono (r : Request) (s : Store) : s.seq ≤ (handle sequelize r s).store.seq := by
  rcases handle_cases r s with ⟨_, _, _, _, h⟩ | ⟨_, _, _, _, _, _, _, h⟩ | ⟨_, h⟩ | ⟨_, _, h⟩ <;>
    simp [h]

/-- A key handed out by one request is above the counter before it and at most the counter
after it. -/
theorem handle_created (r : Request) (s : Store) :
    ∀ i ∈ createdIds (handle sequelize r s).sent,
      s.seq < i ∧ i ≤ (handle sequelize r s).store.seq := by
  rcases handle_cases r s with ⟨_, _, _, _, h⟩ | ⟨_, _, _, _, _, _, _, h⟩ | ⟨_, h⟩ | ⟨resp, hr, h⟩
  · simp [h, createdIds, json]
  · simp [h, createdIds, json]
  · simp [h, createdIds]
  · intro i hi
    exfalso
    obtain ⟨st, bd⟩ := resp
    simp only [h, createdIds, List.filterMap_cons, List.filterMap_nil] at hi
    split at hi
    · simp at hi
    · rename_i h1
      split at h1
      · exact hr rfl
      · simp at h1

theorem handle_seqOk (r : Request) (s : Store) (hs : s.SeqOk) :
    (handle sequelize r s).store.SeqOk := by
  rcases handle_cases r s with ⟨_, _, _, _, h⟩ | ⟨_, _, found, _, hf, _, _, h⟩ | ⟨_, h⟩ | ⟨_, _, h⟩
  · rw [h]
    intro row hrow
    simp only [List.mem_append, List.mem_singleton] at hrow
    rcases hrow with hrow | hrow
    · exact Nat.le_succ_of_le (hs row hrow)
    · subst hrow; exact Nat.le_refl _
  · rw [h]
    intro row hrow
    simp only [List.mem_map] at hrow
    obtain ⟨old, hold, rfl⟩ := hrow
    split
    · exact hs found hf
    · exact hs old hold
  · rw [h]
    intro row hrow
    simp only [List.mem_filter] at hrow
    exact hs row hrow.1
  · rw [h]; exact hs

theorem handle_nonNull (r : Request) (s : Store) (hs : s.NonNull) :
    (handle sequelize r s).store.NonNull := by
  rcases handle_cases r s with ⟨_, _, hn, hp, h⟩ | ⟨_, _, found, _, hf, hn, hp, h⟩ | ⟨_, h⟩ |
    ⟨_, _, h⟩
  · rw [h]
    intro row hrow
    simp only [List.mem_append, List.mem_singleton] at hrow
    rcases hrow with hrow | hrow
    · exact hs row hrow
    · subst hrow; exact ⟨Nat.succ_le_succ (Nat.zero_le _), hn, hp⟩
  · rw [h]
    intro row hrow
    simp only [List.mem_map] at hrow
    obtain ⟨old, hold, rfl⟩ := hrow
    split
    · exact ⟨(hs found hf).1, hn, hp⟩
    · exact hs old hold
  · rw [h]
    intro row hrow
    simp only [List.mem_filter] at hrow
    exact hs row hrow.1
  · rw [h]; exact hs

theorem run_seq_mono (rs : List Request) (s : Store) : s.seq ≤ (run sequelize rs s).store.seq := by
  induction rs generalizing s with
  | nil => exact Nat.le_refl _
  | cons r rs ih => exact Nat.le_trans (handle_seq_mono r s) (ih _)

/-- Every key handed out during a run is at most the counter at the end of the run. -/
theorem run_created_le (rs : List Request) (s : Store) :
    ∀ i ∈ createdIds (run sequelize rs s).sent, i ≤ (run sequelize rs s).store.seq := by
  induction rs generalizing s with
  | nil => intro i hi; simp [run, createdIds] at hi
  | cons r rs ih =>
    intro i hi
    simp only [run, createdIds, List.filterMap_append, List.mem_append] at hi
    rcases hi with hi | hi
    · exact Nat.le_trans (handle_created r s i hi).2 (run_seq_mono rs _)
    · exact ih _ i hi

theorem run_seqOk (rs : List Request) (s : Store) (hs : s.SeqOk) :
    (run sequelize rs s).store.SeqOk := by
  induction rs generalizing s with
  | nil => exact hs
  | cons r rs ih => exact ih _ (handle_seqOk r s hs)

theorem run_nonNull (rs : List Request) (s : Store) (hs : s.NonNull) :
    (run sequelize rs s).store.NonNull := by
  induction rs generalizing s with
  | nil => exact hs
  | cons r rs ih => exact ih _ (handle_nonNull r s hs)

/-- After the rows with key `i` are rewritten to `new`, the lookup of `i` finds `new`. -/
theorem find_map_update (rows : List Product) (i : Nat) (new : Product) (hnew : new.id = i)
    (h : ∃ row ∈ rows, row.id = i) :
    (rows.map fun row => if row.id = i then new else row).find? (fun row => row.id == i) =
      some new := by
  induction rows with
  | nil => obtain ⟨row, hrow, _⟩ := h; cases hrow
  | cons head tail ih =>
    by_cases hh : head.id = i
    · simp [hh, hnew]
    · have ht : ∃ row ∈ tail, row.id = i := by
        obtain ⟨row, hrow, hid⟩ := h
        rcases List.mem_cons.mp hrow with rfl | hrow
        · exact absurd hid hh
        · exact ⟨row, hrow, hid⟩
      simp only [List.map_cons, if_neg hh]
      rw [List.find?_cons_of_neg _ (by simpa using hh)]
      exact ih ht

/-- Started from its own directory, the process works on an empty table, whatever the file
system held before. -/
theorem startUp_same_directory (dir : Path) (fs : FileSystem) :
    (startUp dir dir fs).2 = emptyStore := by
  simp [startUp, clearDatabase, Product.sync, readFile, writeFileSync, databasePath, storagePath]

/-- Once the rows with key `i` are deleted, no row has key `i`. -/
theorem delete_absent_after (s : Store) (i : Nat) (h : ∃ row ∈ s.rows, row.id = i) :
    ∀ row ∈ (deleteProductById sequelize i s).store.rows, row.id ≠ i := by
  obtain ⟨found, hf, _, hid⟩ := find_some_of_present i s.rows h
  rw [deleteProductById_present i s found hf, hid]
  intro row hrow
  simpa using (List.mem_filter.mp hrow).2

theorem emptyStore_seqOk : emptyStore.SeqOk := fun _ h => nomatch h

theorem emptyStore_nonNull : emptyStore.NonNull := fun _ h => nomatch h

theorem bodyParser_price (wire : WireBody) (d : JsonNumber) (h : wire.price = .val d) :
    (bodyParser wire).price = .val (parseNumber d) := by
  simp [bodyParser, h]

theorem bodyParser_nullish (wire : WireBody) :
    (bodyParser wire).name.isNullish = wire.name.isNullish ∧
      (bodyParser wire).price.isNullish = wire.price.isNullish := by
  refine ⟨rfl, ?_⟩
  cases hp : wire.price <;> simp [bodyParser, hp, Field.isNullish]

/-- The JSON object of a stored row that holds the parsed `price` of a request. -/
theorem json_parsed (i : Nat) (n : Field String) (d : JsonNumber) :
    json ⟨i, n, .val (parseNumber d)⟩ = .record ⟨i, n, stringifyNumber (parseNumber d)⟩ := rfl

/-- A create whose body, as sent, carries a name and a price: the outcome of the handler. -/
theorem postProducts_wire (wire : WireBody) (s : Store) (n : String) (d : JsonNumber)
    (hn : wire.name = .val n) (hp : wire.price = .val d) :
    postProducts sequelize (bodyParser wire) s =
      ⟨[⟨201, .record ⟨s.seq + 1, .val n, stringifyNumber (parseNumber d)⟩⟩],
        ⟨s.rows ++ [⟨s.seq + 1, .val n, .val (parseNumber d)⟩], s.seq + 1⟩⟩ := by
  have hnull := bodyParser_nullish wire
  have hname : (bodyParser wire).name = .val n := hn
  rw [postProducts_accept (bodyParser wire) s
    (hnull.1.trans (isNullish_val _ n hn)) (hnull.2.trans (isNullish_val _ d hp)),
    bodyParser_price wire d hp, hname, json_parsed]

/-- An update of a present key whose body, as sent, carries a name and a price: the outcome
of the handler. -/
theorem putProductById_wire (wire : WireBody) (s : Store) (i : Nat) (x : String)
    (d : JsonNumber) (hi : ∃ row ∈ s.rows, row.id = i) (hn : wire.name = .val x)
    (hp : wire.price = .val d) :
    putProductById sequelize i (bodyParser wire) s =
      ⟨[⟨200, .record ⟨i, .val x, stringifyNumber (parseNumber d)⟩⟩],
        ⟨s.rows.map fun row =>
          if row.id = i then ⟨i, .val x, .val (parseNumber d)⟩ else row, s.seq⟩⟩ := by
  obtain ⟨found, hf, _, hid⟩ := find_some_of_present i s.rows hi
  have hnull := bodyParser_nullish wire
  have hname : (bodyParser wire).name = .val x := hn
  rw [putProductById_accept i (bodyParser wire) s found hf
    (hnull.1.trans (isNullish_val _ x hn)) (hnull.2.trans (isNullish_val _ d hp)),
    bodyParser_price wire d hp, hname, hid, json_parsed]

/-- A read of a key whose first row holds a valued price: the outcome of the handler. -/
theorem getProductById_found (i : Nat) (s : Store) (found : Product)
    (h : s.rows.find? (fun row => row.id == i) = some found) :
    getProductById sequelize i s = ⟨[⟨200, json found⟩], s⟩ := by
  rw [getProductById_eq]
  simp only [h]

/-! ## Numbers read by the parser -/

set_option maxRecDepth 1000
set_option exponentiation.threshold 5000

/-- The JSON number `1e400` is read as `Infinity`. -/
theorem parseNumber_1e400 : parseNumber ⟨false, 1, 400⟩ = .infinity false := by decide

/-- The JSON number `9007199254740993` (`2 ^ 53 + 1`) is read as `2 ^ 53`. -/
theorem parseNumber_two53_succ :
    parseNumber ⟨false, 9007199254740993, 0⟩ = .finite 4503599627370496 1 := by decide

/-- The JSON number `9007199254740992` (`2 ^ 53`) is read as itself. -/
theorem parseNumber_two53 :
    parseNumber ⟨false, 9007199254740992, 0⟩ = .finite 4503599627370496 1 := by decide

/-- The JSON number `9.99` is read as the double nearest to it. -/
theorem parseNumber_9_99 :
    parseNumber ⟨false, 999, -2⟩ = .finite 5623870034678907 (-49) := by decide

/-- The JSON number `10` is read as the double `10`. -/
theorem parseNumber_10 : parseNumber ⟨false, 10, 0⟩ = .finite 5629499534213120 (-49) := by
  decide

/-! ## The contract of the routes -/

/-- C1, as stated, fails: a create request whose `price` is the JSON number `1e400` carries a
non-null price (the parser reads it as `Infinity`) and is answered `201` with a record whose
`price` is `null`; and a create request whose `price` is `9007199254740993` is answered with
a record whose `price` is `9007199254740992`. -/
theorem post_price_not_carried :
    (bodyParser (WireBody.mk (.val "Sample Product") (.val ⟨false, 1, 400⟩) [])).price =
      .val (.infinity false) ∧
    (postProducts sequelize
        (bodyParser (WireBody.mk (.val "Sample Product") (.val ⟨false, 1, 400⟩) []))
        emptyStore).sent =
      [⟨201, .record ⟨1, .val "Sample Product", .null⟩⟩] ∧
    (postProducts sequelize
        (bodyParser (WireBody.mk (.val "Sample Product") (.val 9007199254740993) []))
        emptyStore).sent =
      [⟨201, .record ⟨1, .val "Sample Product", .val 9007199254740992⟩⟩] := by
  refine ⟨?_, ?_, ?_⟩
  · rw [bodyParser_price _ ⟨false, 1, 400⟩ rfl, parseNumber_1e400]
  · rw [postProducts_wire _ _ "Sample Product" ⟨false, 1, 400⟩ rfl rfl, parseNumber_1e400]
    rfl
  · rw [postProducts_wire _ _ "Sample Product" ⟨false, 9007199254740993, 0⟩ rfl rfl,
      parseNumber_two53_succ]
    show _ = [(⟨201, .record ⟨1, .val "Sample Product",
      .val (parseNumber ⟨false, 9007199254740992, 0⟩)⟩⟩ : Response)]
    rw [parseNumber_two53]
    rfl

/-- C1, amended: on the configured backend, in the state reached by any sequence of requests
from any initial table, a create request whose `name` and `price` both carry a value is
answered by exactly one response, `201` with a record holding that name and, as price, the
double the parser reads the sent number as, written `null` when that double is not finite;
the key of the record is none of the keys handed out by the `201` responses of the requests
served before, whether or not those products were deleted since. -/
theorem post_created_fresh_id (s0 : Store) (rs : List Request) (wire : WireBody) (n : String)
    (d : JsonNumber) (hn : wire.name = .val n) (hp : wire.price = .val d) :
    ∃ i, (postProducts sequelize (bodyParser wire) (run sequelize rs s0).store).sent =
        [⟨201, .record ⟨i, .val n, stringifyNumber (parseNumber d)⟩⟩] ∧
      i ∉ createdIds (run sequelize rs s0).sent := by
  refine ⟨(run sequelize rs s0).store.seq + 1, ?_, ?_⟩
  · rw [postProducts_wire wire _ n d hn hp]
  · intro hmem
    exact Nat.not_succ_le_self _ (run_created_le rs s0 _ hmem)

/-- Witness of C1 amended: a product is created and deleted, then a create with the price
`9.99` is served. -/
theorem post_created_fresh_id_witness :
    (WireBody.mk (.val "Sample Product") (.val ⟨false, 999, -2⟩) []).name =
      .val "Sample Product" ∧
    (WireBody.mk (.val "Sample Product") (.val ⟨false, 999, -2⟩) []).price =
      .val ⟨false, 999, -2⟩ ∧
    ∃ i, (postProducts sequelize
          (bodyParser (WireBody.mk (.val "Sample Product") (.val ⟨false, 999, -2⟩) []))
          (run sequelize [.post (Body.mk (.val "First") (.val 1) []), .delete 1]
            emptyStore).store).sent =
        [⟨201, .record ⟨i, .val "Sample Product",
          .val (.finite 5623870034678907 (-49))⟩⟩] ∧
      i ∉ createdIds (run sequelize [.post (Body.mk (.val "First") (.val 1) []), .delete 1]
            emptyStore).sent := by
  have h := post_created_fresh_id emptyStore
    [.post (Body.mk (.val "First") (.val 1) []), .delete 1]
    (WireBody.mk (.val "Sample Product") (.val ⟨false, 999, -2⟩) []) "Sample Product"
    ⟨false, 999, -2⟩ rfl rfl
  rw [parseNumber_9_99] at h
  exact ⟨rfl, rfl, h⟩

/-- C2, as stated, fails: on the freshly initialised table a create request with the price
`1e400` is answered `201` with key `1`, and the read of key `1` served next answers `200`
with a record whose `price` is `null`, not the value sent at creation. -/
theorem get_after_create_price_null :
    (postProducts sequelize
        (bodyParser (WireBody.mk (.val "Sample Product") (.val ⟨false, 1, 400⟩) []))
        emptyStore).sent =
      [⟨201, .record ⟨1, .val "Sample Product", .null⟩⟩] ∧
    (getProductById sequelize 1
        (postProducts sequelize
          (bodyParser (WireBody.mk (.val "Sample Product") (.val ⟨false, 1, 400⟩) []))
          emptyStore).store).sent =
      [⟨200, .record ⟨1, .val "Sample Product", .null⟩⟩] := by
  rw [postProducts_wire _ _ "Sample Product" ⟨false, 1, 400⟩ rfl rfl, parseNumber_1e400]
  exact ⟨rfl, rfl⟩

/-- C2, amended: read after create. In a table none of whose keys exceeds the auto-increment
counter (every table reached from start-up is one, `run_seqOk`), if the create handler
answers `201` with a record `p`, then a read of `p.id` served next answers `200` with the
same record `p`; its name is the name sent at creation and its price is the double the
parser reads the sent number as, written `null` when that double is not finite; and on the
freshly initialised table the key is `1`. -/
theorem get_after_create (s : Store) (wire : WireBody) (p : Product) (hs : s.SeqOk)
    (hpost : (postProducts sequelize (bodyParser wire) s).sent = [⟨201, .record p⟩]) :
    (getProductById sequelize p.id (postProducts sequelize (bodyParser wire) s).store).sent =
        [⟨200, .record p⟩] ∧
      (∃ n d, wire.name = .val n ∧ wire.price = .val d ∧
        p.name = .val n ∧ p.price = stringifyNumber (parseNumber d)) ∧
      (s = emptyStore → p.id = 1) := by
  have hnull := bodyParser_nullish wire
  cases hn : wire.name.isNullish with
  | true =>
    rw [postProducts_reject _ s (Or.inl (hnull.1.trans hn))] at hpost
    simp at hpost
  | false =>
    cases hp : wire.price.isNullish with
    | true =>
      rw [postProducts_reject _ s (Or.inr (hnull.2.trans hp))] at hpost
      simp at hpost
    | false =>
      obtain ⟨n, hn2⟩ := val_of_not_nullish _ hn
      obtain ⟨d, hp2⟩ := val_of_not_nullish _ hp
      rw [postProducts_wire wire s n d hn2 hp2] at hpost ⊢
      simp only [List.cons.injEq, Response.mk.injEq, Payload.record.injEq, and_true,
        true_and] at hpost
      subst hpost
      refine ⟨?_, ⟨n, d, hn2, hp2, by simp only, by simp only⟩, ?_⟩
      · have hnone : s.rows.find? (fun row => row.id == s.seq + 1) = none := by
          apply find_none_of_absent
          intro row hrow heq
          have := hs row hrow
          omega
        rw [getProductById_found (s.seq + 1) _ ⟨s.seq + 1, .val n, .val (parseNumber d)⟩
          (by simp [List.find?_append, hnone])]
        rfl
      · intro he; subst he; rfl

/-- Witness of C2 amended: the first create on the freshly initialised table, then a read of
its key. -/
theorem get_after_create_witness :
    emptyStore.SeqOk ∧
    (postProducts sequelize
        (bodyParser (WireBody.mk (.val "Sample Product") (.val 10) [])) emptyStore).sent =
      [⟨201, .record ⟨1, .val "Sample Product", .val 10⟩⟩] ∧
    (getProductById sequelize 1
        (postProducts sequelize
          (bodyParser (WireBody.mk (.val "Sample Product") (.val 10) [])) emptyStore).store).sent =
      [⟨200, .record ⟨1, .val "Sample Product", .val 10⟩⟩] :=
  have hpost : (postProducts sequelize
      (bodyParser (WireBody.mk (.val "Sample Product") (.val 10) [])) emptyStore).sent =
      [⟨201, .record ⟨1, .val "Sample Product", .val 10⟩⟩] := by
    rw [postProducts_wire _ _ "Sample Product" ⟨false, 10, 0⟩ rfl rfl, parseNumber_10]
    show _ = [(⟨201, .record ⟨1, .val "Sample Product",
      .val (parseNumber ⟨false, 10, 0⟩)⟩⟩ : Response)]
    rw [parseNumber_10]
    rfl
  ⟨emptyStore_seqOk, hpost,
    (get_after_create emptyStore (WireBody.mk (.val "Sample Product") (.val 10) [])
      ⟨1, .val "Sample Product", .val 10⟩ emptyStore_seqOk hpost).1⟩

/-- C3, as stated, fails: on a table holding product `1`, an update whose body carries the
name "Updated Product" and the price `1e400` is answered `200` with a record whose `price`
is `null`, and the read of key `1` served next answers the same. -/
theorem put_then_get_price_null :
    (putProductById sequelize 1
        (bodyParser (WireBody.mk (.val "Updated Product") (.val ⟨false, 1, 400⟩) []))
        (Store.mk [⟨1, .val "Sample Product", .val 10⟩] 1)).sent =
      [⟨200, .record ⟨1, .val "Updated Product", .null⟩⟩] ∧
    (getProductById sequelize 1
        (putProductById sequelize 1
          (bodyParser (WireBody.mk (.val "Updated Product") (.val ⟨false, 1, 400⟩) []))
          (Store.mk [⟨1, .val "Sample Product", .val 10⟩] 1)).store).sent =
      [⟨200, .record ⟨1, .val "Updated Product", .null⟩⟩] := by
  rw [putProductById_wire _ _ 1 "Updated Product" ⟨false, 1, 400⟩
    ⟨_, List.mem_singleton.mpr rfl, rfl⟩ rfl rfl, parseNumber_1e400]
  exact ⟨rfl, rfl⟩

/-- C3, amended: update then read. If the table holds a product with key `i` and the body
carries a name `x` and a price, whatever other properties it carries, then the update handler
answers `200` with the record of key `i`, name `x` and, as price, the double the parser reads
the sent number as, written `null` when that double is not finite; a read of `i` served next
answers `200` with that same record: the key is the one the product had. -/
theorem put_then_get (s : Store) (i : Nat) (wire : WireBody) (x : String) (d : JsonNumber)
    (hi : ∃ row ∈ s.rows, row.id = i) (hn : wire.name = .val x) (hp : wire.price = .val d) :
    (putProductById sequelize i (bodyParser wire) s).sent =
        [⟨200, .record ⟨i, .val x, stringifyNumber (parseNumber d)⟩⟩] ∧
      (getProductById sequelize i (putProductById sequelize i (bodyParser wire) s).store).sent =
        [⟨200, .record ⟨i, .val x, stringifyNumber (parseNumber d)⟩⟩] := by
  rw [putProductById_wire wire s i x d hi hn hp]
  refine ⟨rfl, ?_⟩
  rw [getProductById_found i _ ⟨i, .val x, .val (parseNumber d)⟩
    (find_map_update s.rows i ⟨i, .val x, .val (parseNumber d)⟩ rfl hi)]
  rfl

/-- Witness of C3 amended: the update of the test suite, sent with an `id` property in the
body. -/
theorem put_then_get_witness :
    (∃ row ∈ (Store.mk [⟨1, .val "Sample Product", .val 10⟩] 1).rows, row.id = 1) ∧
    (putProductById sequelize 1
        (bodyParser (WireBody.mk (.val "Updated Product") (.val 20) [("id", "7")]))
        (Store.mk [⟨1, .val "Sample Product", .val 10⟩] 1)).sent =
      [⟨200, .record ⟨1, .val "Updated Product", stringifyNumber (parseNumber 20)⟩⟩] ∧
    (getProductById sequelize 1
        (putProductById sequelize 1
          (bodyParser (WireBody.mk (.val "Updated Product") (.val 20) [("id", "7")]))
          (Store.mk [⟨1, .val "Sample Product", .val 10⟩] 1)).store).sent =
      [⟨200, .record ⟨1, .val "Updated Product", stringifyNumber (parseNumber 20)⟩⟩] :=
  ⟨⟨_, List.mem_singleton.mpr rfl, rfl⟩,
    put_then_get (Store.mk [⟨1, .val "Sample Product", .val 10⟩] 1) 1
      (WireBody.mk (.val "Updated Product") (.val 20) [("id", "7")]) "Updated Product" 20
      ⟨_, List.mem_singleton.mpr rfl, rfl⟩ rfl rfl⟩

/-- C4: delete then read. If the table holds a product with key `i`, the delete handler
answers `200` with the message "Product deleted successfully", no row with key `i` is left,
and a read of `i` served next answers `404`. -/
theorem delete_then_get (s : Store) (i : Nat) (hi : ∃ row ∈ s.rows, row.id = i) :
    (deleteProductById sequelize i s).sent =
        [⟨200, .message "Product deleted successfully"⟩] ∧
      (∀ row ∈ (deleteProductById sequelize i s).store.rows, row.id ≠ i) ∧
      (getProductById sequelize i (deleteProductById sequelize i s).store).sent =
        [⟨404, .error "Product not found"⟩] := by
  obtain ⟨found, hf, _, hid⟩ := find_some_of_present i s.rows hi
  rw [deleteProductById_present i s found hf, hid]
  have habs : ∀ row ∈ s.rows.filter (fun row => row.id != i), row.id ≠ i := by
    intro row hrow
    simpa using (List.mem_filter.mp hrow).2
  refine ⟨rfl, habs, ?_⟩
  rw [getProductById_eq]
  simp only [find_none_of_absent i _ habs]

/-- Witness of C4: the delete of the test suite, with a second product in the table. -/
theorem delete_then_get_witness :
    (∃ row ∈ (Store.mk [⟨1, .val "Sample Product", .val 10⟩, ⟨2, .val "Other", .val 3⟩] 2).rows,
      row.id = 1) ∧
    (deleteProductById sequelize 1
        (Store.mk [⟨1, .val "Sample Product", .val 10⟩, ⟨2, .val "Other", .val 3⟩] 2)).sent =
      [⟨200, .message "Product deleted successfully"⟩] ∧
    (getProductById sequelize 1 (deleteProductById sequelize 1
        (Store.mk [⟨1, .val "Sample Product", .val 10⟩, ⟨2, .val "Other", .val 3⟩] 2)).store).sent =
      [⟨404, .error "Product not found"⟩] :=
  ⟨⟨_, List.mem_cons_self _ _, rfl⟩,
    (delete_then_get
      (Store.mk [⟨1, .val "Sample Product", .val 10⟩, ⟨2, .val "Other", .val 3⟩] 2) 1
      ⟨_, List.mem_cons_self _ _, rfl⟩).1,
    (delete_then_get
      (Store.mk [⟨1, .val "Sample Product", .val 10⟩, ⟨2, .val "Other", .val 3⟩] 2) 1
      ⟨_, List.mem_cons_self _ _, rfl⟩).2.2⟩

/-- C5: a key that is not in the table. If no row has key `i`, then the read handler, the
update handler with any body and the delete handler each answer `404` with the error
"Product not found" and leave the table as it was; and whatever the table holds, a delete of
`i` served right after a delete of `i` answers `404` and changes nothing. -/
theorem absent_key_not_found (s : Store) (i : Nat) (body : Body) :
    ((∀ row ∈ s.rows, row.id ≠ i) →
        getProductById sequelize i s = ⟨[⟨404, .error "Product not found"⟩], s⟩ ∧
        putProductById sequelize i body s = ⟨[⟨404, .error "Product not found"⟩], s⟩ ∧
        deleteProductById sequelize i s = ⟨[⟨404, .error "Product not found"⟩], s⟩) ∧
      deleteProductById sequelize i (deleteProductById sequelize i s).store =
        ⟨[⟨404, .error "Product not found"⟩], (deleteProductById sequelize i s).store⟩ := by
  have key : ∀ t : Store, (∀ row ∈ t.rows, row.id ≠ i) →
      deleteProductById sequelize i t = ⟨[⟨404, .error "Product not found"⟩], t⟩ :=
    fun t ht => deleteProductById_absent i t (find_none_of_absent i t.rows ht)
  refine ⟨fun h => ⟨?_, putProductById_absent i body s (find_none_of_absent i s.rows h),
    key s h⟩, ?_⟩
  · rw [getProductById_eq]
    simp only [find_none_of_absent i s.rows h]
  · apply key
    by_cases h : ∃ row ∈ s.rows, row.id = i
    · exact (delete_absent_after s i h)
    · rw [key s (fun row hrow heq => h ⟨row, hrow, heq⟩)]
      exact fun row hrow heq => h ⟨row, hrow, heq⟩

/-- Witness of C5: key `2` on a table that holds only product `1`. -/
theorem absent_key_not_found_witness :
    (∀ row ∈ (Store.mk [⟨1, .val "Sample Product", .val 10⟩] 1).rows, row.id ≠ 2) ∧
    getProductById sequelize 2 (Store.mk [⟨1, .val "Sample Product", .val 10⟩] 1) =
      ⟨[⟨404, .error "Product not found"⟩], Store.mk [⟨1, .val "Sample Product", .val 10⟩] 1⟩ ∧
    putProductById sequelize 2 (Body.mk (.val "Updated Product") (.val 20) [])
        (Store.mk [⟨1, .val "Sample Product", .val 10⟩] 1) =
      ⟨[⟨404, .error "Product not found"⟩], Store.mk [⟨1, .val "Sample Product", .val 10⟩] 1⟩ ∧
    deleteProductById sequelize 2 (Store.mk [⟨1, .val "Sample Product", .val 10⟩] 1) =
      ⟨[⟨404, .error "Product not found"⟩], Store.mk [⟨1, .val "Sample Product", .val 10⟩] 1⟩ ∧
    deleteProductById sequelize 1
        (deleteProductById sequelize 1 (Store.mk [⟨1, .val "Sample Product", .val 10⟩] 1)).store =
      ⟨[⟨404, .error "Product not found"⟩], Store.mk [] 1⟩ :=
  have h : ∀ row ∈ (Store.mk [⟨1, .val "Sample Product", .val 10⟩] 1).rows, row.id ≠ 2 := by
    intro row hrow
    rw [List.mem_singleton.mp hrow]
    decide
  ⟨h,
    ((absent_key_not_found (Store.mk [⟨1, .val "Sample Product", .val 10⟩] 1) 2
      (Body.mk (.val "Updated Product") (.val 20) [])).1 h).1,
    ((absent_key_not_found (Store.mk [⟨1, .val "Sample Product", .val 10⟩] 1) 2
      (Body.mk (.val "Updated Product") (.val 20) [])).1 h).2.1,
    ((absent_key_not_found (Store.mk [⟨1, .val "Sample Product", .val 10⟩] 1) 2
      (Body.mk (.val "Updated Product") (.val 20) [])).1 h).2.2,
    (absent_key_not_found (Store.mk [⟨1, .val "Sample Product", .val 10⟩] 1) 1
      (Body.mk (.val "Updated Product") (.val 20) [])).2⟩

/-- C6: a create request whose `name` or `price` is `null` or absent is answered by exactly
one response, `500` with the error "Unable to create product", and the table is left as it
was. -/
theorem post_null_rejected (s : Store) (body : Body)
    (h : body.name.isNullish = true ∨ body.price.isNullish = true) :
    postProducts sequelize body s = ⟨[⟨500, .error "Unable to create product"⟩], s⟩ :=
  postProducts_reject body s h

/-- Witness of C6: a body without `price`. -/
theorem post_null_rejected_witness :
    ((Body.mk (.val "Sample Product") .undefined []).name.isNullish = true ∨
      (Body.mk (.val "Sample Product") .undefined []).price.isNullish = true) ∧
    postProducts sequelize (Body.mk (.val "Sample Product") .undefined []) emptyStore =
      ⟨[⟨500, .error "Unable to create product"⟩], emptyStore⟩ :=
  ⟨Or.inr rfl, post_null_rejected emptyStore _ (Or.inr rfl)⟩

/-- C7: storage failures. For any storage backend, any state and any request: if the storage
call of the create handler raises, the handler writes exactly one response, `500` with
"Unable to create product"; if the lookup raises, the read, update and delete handlers each
write exactly one response, `500` with "Unable to retrieve product", "Unable to update
product" and "Unable to delete product"; if the lookup finds a product and `save` (in update)
or `destroy` (in delete) raises, the handler writes exactly one response, `500` with the same
fixed body of its operation. The response does not mention the error value, so it is the same
for any two errors. -/
theorem storage_error_fixed_500 {σ ε : Type} (db : Storage σ ε) (s : σ) (i : Nat)
    (body : Body) :
    (∀ e s1, db.create body.name body.price s = (.error e, s1) →
        (postProducts db body s).sent = [⟨500, .error "Unable to create product"⟩]) ∧
    (∀ e s1, db.findByPk i s = (.error e, s1) →
        (getProductById db i s).sent = [⟨500, .error "Unable to retrieve product"⟩] ∧
        (putProductById db i body s).sent = [⟨500, .error "Unable to update product"⟩] ∧
        (deleteProductById db i s).sent = [⟨500, .error "Unable to delete product"⟩]) ∧
    (∀ found s1 e s2, db.findByPk i s = (.ok (some found), s1) →
        db.save ⟨found.id, body.name, body.price⟩ s1 = (.error e, s2) →
        (putProductById db i body s).sent = [⟨500, .error "Unable to update product"⟩]) ∧
    (∀ found s1 e s2, db.findByPk i s = (.ok (some found), s1) →
        db.destroy found s1 = (.error e, s2) →
        (deleteProductById db i s).sent = [⟨500, .error "Unable to delete product"⟩]) := by
  refine ⟨?_, ?_, ?_, ?_⟩
  · intro e s1 h
    simp [postProducts, h]
  · intro e s1 h
    simp [getProductById, putProductById, deleteProductById, h]
  · intro found s1 e s2 hf hs
    simp [putProductById, hf, hs]
  · intro found s1 e s2 hf hd
    simp [deleteProductById, hf, hd]

/-- Witness of C7: a backend that cannot be reached (every call raises), and a backend whose
lookups succeed and whose writes raise, each with its own error value. -/
theorem storage_error_fixed_500_witness :
    (postProducts (unavailable (StorageError.notNull "a")) (Body.mk (.val "Sample Product") (.val 10) [])
        (Store.mk [⟨1, .val "Sample Product", .val 10⟩] 1)).sent =
      [⟨500, .error "Unable to create product"⟩] ∧
    (getProductById (unavailable (StorageError.notNull "a")) 1
        (Store.mk [⟨1, .val "Sample Product", .val 10⟩] 1)).sent =
      [⟨500, .error "Unable to retrieve product"⟩] ∧
    (putProductById (readOnly (StorageError.notNull "b")) 1 (Body.mk (.val "Updated Product") (.val 20) [])
        (Store.mk [⟨1, .val "Sample Product", .val 10⟩] 1)).sent =
      [⟨500, .error "Unable to update product"⟩] ∧
    (deleteProductById (readOnly (StorageError.notNull "b")) 1
        (Store.mk [⟨1, .val "Sample Product", .val 10⟩] 1)).sent =
      [⟨500, .error "Unable to delete product"⟩] :=
  ⟨(storage_error_fixed_500 (unavailable (StorageError.notNull "a"))
      (Store.mk [⟨1, .val "Sample Product", .val 10⟩] 1) 1
      (Body.mk (.val "Sample Product") (.val 10) [])).1 (StorageError.notNull "a") _ rfl,
    ((storage_error_fixed_500 (unavailable (StorageError.notNull "a"))
      (Store.mk [⟨1, .val "Sample Product", .val 10⟩] 1) 1
      (Body.mk (.val "Sample Product") (.val 10) [])).2.1 (StorageError.notNull "a") _ rfl).1,
    (storage_error_fixed_500 (readOnly (StorageError.notNull "b"))
      (Store.mk [⟨1, .val "Sample Product", .val 10⟩] 1) 1
      (Body.mk (.val "Updated Product") (.val 20) [])).2.2.1
        ⟨1, .val "Sample Product", .val 10⟩ _ (StorageError.notNull "b") _ rfl rfl,
    (storage_error_fixed_500 (readOnly (StorageError.notNull "b"))
      (Store.mk [⟨1, .val "Sample Product", .val 10⟩] 1) 1
      (Body.mk (.val "Updated Product") (.val 20) [])).2.2.2
        ⟨1, .val "Sample Product", .val 10⟩ _ (StorageError.notNull "b") _ rfl rfl⟩

/-- C8: the invariant of the table. After any sequence of create, read, update and delete
requests served from the empty table, with any bodies, every stored product has an assigned
key (at least `1`), a name that carries a value and a price that carries a value. -/
theorem stored_products_non_null (rs : List Request) :
    ∀ row ∈ (run sequelize rs emptyStore).store.rows,
      1 ≤ row.id ∧ (∃ n, row.name = .val n) ∧ (∃ x, row.price = .val x) := by
  intro row hrow
  obtain ⟨hid, hn, hp⟩ := run_nonNull rs emptyStore emptyStore_nonNull row hrow
  exact ⟨hid, val_of_not_nullish _ hn, val_of_not_nullish _ hp⟩

/-- Witness of C8: a create, then an update whose body omits `name` and nulls `price`. -/
theorem stored_products_non_null_witness :
    (⟨1, .val "Sample Product", .val 10⟩ : Product) ∈
      (run sequelize [.post (Body.mk (.val "Sample Product") (.val 10) []),
        .put 1 (Body.mk .undefined .null []), .post (Body.mk .null (.val 3) [])]
        emptyStore).store.rows ∧
    (1 ≤ (⟨1, .val "Sample Product", .val 10⟩ : Product).id ∧
      (∃ n, (⟨1, .val "Sample Product", .val 10⟩ : Product).name = .val n) ∧
      (∃ x, (⟨1, .val "Sample Product", .val 10⟩ : Product).price = .val x)) :=
  ⟨List.mem_singleton.mpr rfl,
    stored_products_non_null [.post (Body.mk (.val "Sample Product") (.val 10) []),
        .put 1 (Body.mk .undefined .null []), .post (Body.mk .null (.val 3) [])]
      ⟨1, .val "Sample Product", .val 10⟩ (List.mem_singleton.mpr rfl)⟩

/-- C9, as stated, fails: on a table holding product `1`, an update whose body omits `name`
is not answered `200` with a record whose name is the missing value. The `save` call is
refused by `allowNull: false`, the response is `500` with "Unable to update product", and
the stored product keeps its name and its price. -/
theorem put_omitted_name_not_persisted :
    putProductById sequelize 1 (Body.mk .undefined (.val 20) [])
        (Store.mk [⟨1, .val "Sample Product", .val 10⟩] 1) =
      ⟨[⟨500, .error "Unable to update product"⟩],
        Store.mk [⟨1, .val "Sample Product", .val 10⟩] 1⟩ ∧
    (putProductById sequelize 1 (Body.mk .undefined (.val 20) [])
        (Store.mk [⟨1, .val "Sample Product", .val 10⟩] 1)).sent ≠
      [⟨200, .record ⟨1, .undefined, .val 20⟩⟩] :=
  ⟨rfl, by decide⟩

/-- C9, amended: if the table holds a product with key `i`, then an update whose body carries
values for both `name` and `price` overwrites both: every row with key `i` becomes the
record of key `i` with the body's name and, as price, the double the parser reads the sent
number as; the other rows and the counter are untouched; the answer is `200` with that
record, its price written `null` when the double is not finite. An update whose body omits
or nulls `name` or `price` is answered `500` with "Unable to update product" and leaves the
table as it was. -/
theorem put_overwrites_or_rejects (s : Store) (i : Nat) (wire : WireBody)
    (hi : ∃ row ∈ s.rows, row.id = i) :
    (∀ x d, wire.name = .val x → wire.price = .val d →
        putProductById sequelize i (bodyParser wire) s =
          ⟨[⟨200, .record ⟨i, .val x, stringifyNumber (parseNumber d)⟩⟩],
            ⟨s.rows.map fun row =>
              if row.id = i then ⟨i, .val x, .val (parseNumber d)⟩ else row, s.seq⟩⟩) ∧
    (wire.name.isNullish = true ∨ wire.price.isNullish = true →
        putProductById sequelize i (bodyParser wire) s =
          ⟨[⟨500, .error "Unable to update product"⟩], s⟩) := by
  obtain ⟨found, hf, _, hid⟩ := find_some_of_present i s.rows hi
  have hnull := bodyParser_nullish wire
  refine ⟨fun x d hn hp => ?_, fun hb => putProductById_reject i _ s found hf ?_⟩
  · exact putProductById_wire wire s i x d hi hn hp
  · rcases hb with hb | hb
    · exact Or.inl (hnull.1.trans hb)
    · exact Or.inr (hnull.2.trans hb)

/-- Witness of C9 amended: the two kinds of body on a table of two products. -/
theorem put_overwrites_or_rejects_witness :
    (∃ row ∈ (Store.mk [⟨1, .val "Sample Product", .val 10⟩, ⟨2, .val "Other", .val 3⟩] 2).rows,
      row.id = 1) ∧
    putProductById sequelize 1
        (bodyParser (WireBody.mk (.val "Updated Product") (.val ⟨true, 1995, -2⟩) []))
        (Store.mk [⟨1, .val "Sample Product", .val 10⟩, ⟨2, .val "Other", .val 3⟩] 2) =
      ⟨[⟨200, .record ⟨1, .val "Updated Product",
          stringifyNumber (parseNumber ⟨true, 1995, -2⟩)⟩⟩],
        Store.mk [⟨1, .val "Updated Product", .val (parseNumber ⟨true, 1995, -2⟩)⟩,
          ⟨2, .val "Other", .val 3⟩] 2⟩ ∧
    putProductById sequelize 1 (bodyParser (WireBody.mk (.val "Updated Product") .null []))
        (Store.mk [⟨1, .val "Sample Product", .val 10⟩, ⟨2, .val "Other", .val 3⟩] 2) =
      ⟨[⟨500, .error "Unable to update product"⟩],
        Store.mk [⟨1, .val "Sample Product", .val 10⟩, ⟨2, .val "Other", .val 3⟩] 2⟩ :=
  ⟨⟨_, List.mem_cons_self _ _, rfl⟩,
    (put_overwrites_or_rejects
      (Store.mk [⟨1, .val "Sample Product", .val 10⟩, ⟨2, .val "Other", .val 3⟩] 2) 1
      (WireBody.mk (.val "Updated Product") (.val ⟨true, 1995, -2⟩) [])
      ⟨_, List.mem_cons_self _ _, rfl⟩).1 "Updated Product" ⟨true, 1995, -2⟩ rfl rfl,
    (put_overwrites_or_rejects
      (Store.mk [⟨1, .val "Sample Product", .val 10⟩, ⟨2, .val "Other", .val 3⟩] 2) 1
      (WireBody.mk (.val "Updated Product") .null []) ⟨_, List.mem_cons_self _ _, rfl⟩).2
        (Or.inr rfl)⟩

/-- C10 at a working directory other than the module directory: the module lives in
`/srv/app/server`, the process is started from `/srv/app`, and `/srv/app/database.sqlite`
holds a product from an earlier run. `clearDatabase` truncates
`/srv/app/server/database.sqlite`; the connection opens `/srv/app/database.sqlite`, so the
table the handlers work on still holds the old product and a read of key `1` answers `200`
with it. -/
theorem startUp_other_cwd_keeps_old_products :
    (startUp ["srv", "app", "server"] ["srv", "app"]
        [(["srv", "app", "database.sqlite"],
          .database (Store.mk [⟨1, .val "Old Product", .val 5⟩] 1))]).2 =
      Store.mk [⟨1, .val "Old Product", .val 5⟩] 1 ∧
    databasePath ["srv", "app", "server"] ≠ storagePath ["srv", "app"] ∧
    (getProductById sequelize 1
        (startUp ["srv", "app", "server"] ["srv", "app"]
          [(["srv", "app", "database.sqlite"],
            .database (Store.mk [⟨1, .val "Old Product", .val 5⟩] 1))]).2).sent =
      [⟨200, .record ⟨1, .val "Old Product", .val 5⟩⟩] := by
  refine ⟨by decide, by decide, by decide⟩

end ProductService
